import Mathlib

/-!
Verification of `streamlit_investor_app.py`, a single-file Streamlit page that
renders marketing sections for an "algorithmic options hedging strategy".

The embedding works over ℚ.  NumPy's seeded generator is modelled abstractly:
an `RNG` carries a library map `lib : ℕ → ℕ → ℚ` (seed ↦ the stream of
standard-normal variates the seeded generator will emit) together with the
current stream and position; `np.random.seed n` installs `lib n` and resets
the position, and `np.random.normal mean std k` consumes the next `k` draws
`z` as `mean + std * z`.  Dates are day offsets from 2025-09-01 (a Monday),
so the weekday of offset `d` is `d % 7` with `0` = Monday.
-/

namespace InvestorApp

/-- Running (cumulative) sums with accumulator `acc`: models `np.cumsum`. -/
def cumsumFrom (acc : ℚ) : List ℚ → List ℚ
  | [] => []
  | x :: xs => (acc + x) :: cumsumFrom (acc + x) xs

/-- `np.cumsum`: element `i` of the result is the sum of the first `i+1` inputs. -/
def cumsum (xs : List ℚ) : List ℚ := cumsumFrom 0 xs

/-- Elementwise `xs / xs[-1] * target`, as in
`our_algorithm = our_algorithm / our_algorithm[-1] * 124477`.
There is no zero guard in the source; in ℚ division by zero yields 0. -/
def rescale (target : ℚ) (xs : List ℚ) : List ℚ :=
  xs.map (fun x => x / xs.getLastD 0 * target)

/-- `pd.date_range('2025-09-01', '2025-11-11', freq='B')[:48]` as day offsets
from 2025-09-01.  2025-11-11 is offset 71 (Sep has 30 days, Oct has 31), so
the calendar range is offsets 0..71; `freq='B'` keeps Monday–Friday, i.e.
`d % 7 < 5` since offset 0 (2025-09-01) is a Monday; `[:48]` takes 48. -/
def dates : List ℕ :=
  ((List.range 72).filter (fun d => d % 7 < 5)).take 48

/-- Model of NumPy's global generator state. -/
structure RNG where
  lib : ℕ → ℕ → ℚ
  stream : ℕ → ℚ
  pos : ℕ

/-- `np.random.seed n`: install the seed-`n` variate stream, position 0. -/
def RNG.seed (r : RNG) (n : ℕ) : RNG :=
  { r with stream := r.lib n, pos := 0 }

/-- `np.random.normal(mean, std, n)`: the next `n` variates, affinely scaled. -/
def RNG.normal (r : RNG) (mean std : ℚ) (n : ℕ) : List ℚ × RNG :=
  ((List.range n).map (fun i => mean + std * r.stream (r.pos + i)),
   { r with pos := r.pos + n })

/-- The 48 draws of `np.random.normal(mean, std, 48)` taken from stream `z`
starting at position `off` (after `np.random.seed(42)` the four series use
offsets 0, 48, 96, 144 in call order). -/
def seriesDraws (z : ℕ → ℚ) (mean std : ℚ) (off : ℕ) : List ℚ :=
  (List.range 48).map (fun i => mean + std * z (off + i))

/-- One column of the returned DataFrame: the date index or a numeric series. -/
inductive ColData where
  | dateCol (ds : List ℕ)
  | ratCol (xs : List ℚ)
deriving DecidableEq

/-- `pd.DataFrame({...})`: an ordered collection of named columns. -/
structure NamedFrame where
  cols : List (String × ColData)
deriving DecidableEq

/-- Column lookup `df[k]`, `none` when the key is absent. -/
def NamedFrame.get? (df : NamedFrame) (k : String) : Option ColData :=
  (df.cols.find? (fun c => c.1 == k)).map (fun c => c.2)

/-- The numeric entries of column `k` (empty for a missing or date column). -/
def NamedFrame.col (df : NamedFrame) (k : String) : List ℚ :=
  match df.get? k with
  | some (ColData.ratCol xs) => xs
  | _ => []

/-- `generate_performance_data`: seed 42, build the business-day index, draw
four cumulative series and rescale each so its final value is its target. -/
def generate_performance_data (r0 : RNG) : NamedFrame :=
  let r := r0.seed 42
  let p := r.normal 2593 1500 48
  let our_algorithm := rescale 124477 (cumsum p.1)
  let q := p.2.normal 390 600 48
  let bank_nifty := rescale 18750 (cumsum q.1)
  let s := q.2.normal 260 400 48
  let nifty_index := rescale 12500 (cumsum s.1)
  let t := s.2.normal 173 250 48
  let mutual_funds := rescale 8333 (cumsum t.1)
  ⟨[("Date", ColData.dateCol dates),
    ("Our_Algorithm", ColData.ratCol our_algorithm),
    ("Bank_Nifty", ColData.ratCol bank_nifty),
    ("Nifty_Index", ColData.ratCol nifty_index),
    ("Mutual_Funds", ColData.ratCol mutual_funds)]⟩

/-- The spec's phrasing of a generated series: the running sum of the
increments, then "linearly rescaled (every element multiplied by the same
constant, target / final-cumulative-value)".  Stated separately from
`rescale` (which mirrors the source's `xs / xs[-1] * target`) so the two
can be compared. -/
def spec_rescaled_series (incs : List ℚ) (target : ℚ) : List ℚ :=
  (cumsum incs).map (fun x => x * (target / (cumsum incs).getLastD 0))

/-- One plotly trace: a scatter line (`go.Scatter`), a categorical bar
series (`go.Bar`), or a radial trace (`go.Scatterpolar`). -/
inductive PlotTrace where
  | scatter (x : ColData) (y : ColData) (mode : String) (nm : String) (dash : Bool)
  | bar (x : List String) (y : List ℚ) (colors : List String)
  | scatterpolar (r : List ℚ) (theta : List String) (nm : String)
deriving DecidableEq

/-- A plotly figure: its traces plus the layout fields the app sets. -/
structure Figure where
  traces : List PlotTrace
  title : String
  height : ℕ
deriving DecidableEq

/-- The y-series a trace displays. -/
def PlotTrace.yData : PlotTrace → ColData
  | .scatter _ y _ _ _ => y
  | .bar _ ys _ => ColData.ratCol ys
  | .scatterpolar rs _ _ => ColData.ratCol rs

/-- The x-series of a scatter trace (`none` for the categorical kinds). -/
def PlotTrace.xData : PlotTrace → Option ColData
  | .scatter x _ _ _ _ => some x
  | .bar _ _ _ => none
  | .scatterpolar _ _ _ => none

/-- `create_performance_chart`: four `go.Scatter` traces over the frame's
columns (each `data[...]` access is a lookup that fails on a missing key,
modelled by the `Option` bind). -/
def create_performance_chart (data : NamedFrame) : Option Figure := do
  let xd ← data.get? "Date"
  let ya ← data.get? "Our_Algorithm"
  let yb ← data.get? "Bank_Nifty"
  let yn ← data.get? "Nifty_Index"
  let ym ← data.get? "Mutual_Funds"
  some { traces :=
          [PlotTrace.scatter xd ya "lines+markers" "Our Algorithm" false,
           PlotTrace.scatter xd yb "lines" "Bank Nifty" true,
           PlotTrace.scatter xd yn "lines" "Nifty Index" true,
           PlotTrace.scatter xd ym "lines" "Mutual Funds" true],
         title := "Cumulative Performance Comparison (Sep - Nov 2025)",
         height := 500 }

/-- The literal `strategies` list of `create_drawdown_chart`. -/
def strategies : List String :=
  ["Our Algorithm", "Bank Nifty", "Nifty Index", "Mutual Funds"]

/-- The literal `drawdowns` list of `create_drawdown_chart` (percent). -/
def drawdowns : List ℚ := [19.6, 12.3, 8.5, 6.2]

/-- The literal `colors` list of `create_drawdown_chart`. -/
def colors : List String := ["#38a169", "#ed8936", "#3182ce", "#9f7aea"]

/-- `create_drawdown_chart`: one `go.Bar` trace over fixed literals. -/
def create_drawdown_chart : Figure :=
  { traces := [PlotTrace.bar strategies drawdowns colors],
    title := "Maximum Drawdown Comparison",
    height := 400 }

/-- The literal `categories` list of `create_risk_radar_chart`. -/
def categories : List String :=
  ["Consistency", "Drawdown Control", "Win Rate", "Sharpe Ratio", "Adaptability"]

/-- The literal `values` list of `create_risk_radar_chart` (0-100 scores). -/
def values : List ℚ := [85, 90, 75, 85, 95]

/-- `create_risk_radar_chart`: one `go.Scatterpolar` trace over fixed
literals. -/
def create_risk_radar_chart : Figure :=
  { traces := [PlotTrace.scatterpolar values categories "Our Algorithm"],
    title := "Risk Profile Assessment",
    height := 400 }

/-- The "Max Drawdown: <25%" figure quoted in the PERFORMANCE TARGETS card
of `main`. -/
def performance_targets_max_drawdown : ℚ := 25

/-- The kinds of blocks `main` emits into the Streamlit page, in source
order: styled markdown blocks (classified by their CSS class), section
headers and subheaders, plain `st.write` text, the calls into the
generator and the three chart builders, `st.plotly_chart` embeds, the
`st.dataframe` comparison table, and the footer. -/
inductive Event where
  | headerBlock
  | kpiCard
  | divider
  | sectionHeader
  | subHeader
  | featureCard
  | textBlock
  | highlightBox
  | genCall
  | buildPerf
  | buildDrawdown
  | buildRadar
  | chartEmbed
  | comparisonTable
  | footerBlock
deriving DecidableEq

/-- The sequence of blocks a single run of `main` emits, transcribed from
the body of `main` in source order (column contexts flatten left to right,
matching Streamlit's execution order). -/
def mainTrace : List Event :=
  [Event.headerBlock,
   Event.kpiCard, Event.kpiCard, Event.kpiCard, Event.kpiCard,
   Event.divider,
   Event.sectionHeader, Event.subHeader,
   Event.genCall, Event.buildPerf, Event.chartEmbed,
   Event.subHeader, Event.comparisonTable,
   Event.divider,
   Event.sectionHeader, Event.subHeader,
   Event.featureCard, Event.featureCard, Event.featureCard, Event.featureCard,
   Event.subHeader,
   Event.textBlock, Event.textBlock, Event.textBlock,
   Event.textBlock, Event.textBlock, Event.textBlock,
   Event.divider,
   Event.sectionHeader, Event.subHeader,
   Event.buildDrawdown, Event.chartEmbed, Event.buildRadar, Event.chartEmbed,
   Event.subHeader,
   Event.featureCard, Event.featureCard, Event.featureCard,
   Event.featureCard, Event.featureCard, Event.featureCard,
   Event.divider,
   Event.sectionHeader, Event.subHeader,
   Event.highlightBox,
   Event.featureCard, Event.featureCard, Event.featureCard, Event.featureCard,
   Event.footerBlock]

/-- One row of the hardcoded `comparison_data` table in `main`: metric
name, "Our Algorithm" value, "Best Traditional" value, and the displayed
"Outperformance" percentage (the integer printed after the `+` sign). -/
structure ComparisonRow where
  metric : String
  ourAlgorithm : ℚ
  bestTraditional : ℚ
  outperformancePct : ℤ
deriving DecidableEq

/-- The `comparison_data` literal of `main`, with the currency and percent
formatting stripped to the underlying numbers. -/
def comparison_data : List ComparisonRow :=
  [⟨"Total Returns", 124477, 18750, 564⟩,
   ⟨"Annualized Return", 186.8, 28.1, 565⟩,
   ⟨"Daily Average", 2593, 390, 565⟩,
   ⟨"Win Rate", 62.5, 52.0, 20⟩,
   ⟨"Sharpe Ratio", 4.20, 0.9, 367⟩]

/-- Relative outperformance of `a` over `b`, as a percentage. -/
def outperf (a b : ℚ) : ℚ := (a - b) / b * 100

/-- An `RNG` whose every variate is 0, used to instantiate universally
quantified statements at a concrete generator. -/
def zeroRNG : RNG := ⟨fun _ _ => 0, fun _ => 0, 0⟩

theorem cumsumFrom_getLastD (xs : List ℚ) :
    ∀ a : ℚ, (cumsumFrom a xs).getLastD a = a + xs.sum := by
  induction xs with
  | nil => intro a; simp [cumsumFrom]
  | cons x xs ih =>
    intro a
    simp only [cumsumFrom, List.getLastD_cons, ih (a + x), List.sum_cons]
    ring

theorem cumsum_getLastD (xs : List ℚ) : (cumsum xs).getLastD 0 = xs.sum := by
  simpa [cumsum] using cumsumFrom_getLastD xs 0

theorem cumsumFrom_length (xs : List ℚ) :
    ∀ a, (cumsumFrom a xs).length = xs.length := by
  induction xs with
  | nil => intro a; rfl
  | cons x xs ih => intro a; simp [cumsumFrom, ih]

theorem cumsum_length (xs : List ℚ) : (cumsum xs).length = xs.length :=
  cumsumFrom_length xs 0

theorem cumsum_ne_nil (xs : List ℚ) (h : xs ≠ []) : cumsum xs ≠ [] := by
  intro hc
  apply h
  have hl := cumsum_length xs
  rw [hc] at hl
  exact List.length_eq_zero.mp hl.symm

theorem rescale_getLastD (t : ℚ) (xs : List ℚ) (hne : xs ≠ [])
    (h : xs.getLastD 0 ≠ 0) : (rescale t xs).getLastD 0 = t := by
  cases hx : xs.getLast? with
  | none => exact absurd (List.getLast?_eq_none_iff.mp hx) hne
  | some a =>
    have ha : xs.getLastD 0 = a := by rw [List.getLastD_eq_getLast?, hx]; rfl
    rw [rescale, List.getLastD_eq_getLast?, List.getLast?_map, hx]
    simp only [Option.map_some', Option.getD_some]
    rw [ha, div_self (ha ▸ h), one_mul]

theorem rescale_length (t : ℚ) (xs : List ℚ) :
    (rescale t xs).length = xs.length := by
  simp [rescale]

theorem rescale_eq_spec (t : ℚ) (incs : List ℚ) :
    rescale t (cumsum incs) = spec_rescaled_series incs t := by
  unfold rescale spec_rescaled_series
  have hf : (fun x : ℚ => x / (cumsum incs).getLastD 0 * t) =
      (fun x : ℚ => x * (t / (cumsum incs).getLastD 0)) := by
    funext x
    ring
  rw [hf]

theorem seriesDraws_length (z : ℕ → ℚ) (m s : ℚ) (off : ℕ) :
    (seriesDraws z m s off).length = 48 := by
  simp [seriesDraws]

theorem seriesDraws_ne_nil (z : ℕ → ℚ) (m s : ℚ) (off : ℕ) :
    seriesDraws z m s off ≠ [] := by
  intro h
  have hl := seriesDraws_length z m s off
  rw [h] at hl
  simp at hl

theorem gpd_col_our (r : RNG) :
    (generate_performance_data r).col "Our_Algorithm" =
      rescale 124477 (cumsum (seriesDraws (r.lib 42) 2593 1500 0)) := rfl

theorem gpd_col_bank (r : RNG) :
    (generate_performance_data r).col "Bank_Nifty" =
      rescale 18750 (cumsum (seriesDraws (r.lib 42) 390 600 48)) := rfl

theorem gpd_col_nifty (r : RNG) :
    (generate_performance_data r).col "Nifty_Index" =
      rescale 12500 (cumsum (seriesDraws (r.lib 42) 260 400 96)) := rfl

theorem gpd_col_mutual (r : RNG) :
    (generate_performance_data r).col "Mutual_Funds" =
      rescale 8333 (cumsum (seriesDraws (r.lib 42) 173 250 144)) := rfl

theorem zeroRNG_draw_sum (m s : ℚ) (off : ℕ) :
    (seriesDraws (zeroRNG.lib 42) m s off).sum = 48 * m := by
  simp [seriesDraws, zeroRNG, List.map_const']
  ring

theorem zeroRNG_cumsum_last (m s : ℚ) (off : ℕ) :
    (cumsum (seriesDraws (zeroRNG.lib 42) m s off)).getLastD 0 = 48 * m := by
  rw [cumsum_getLastD, zeroRNG_draw_sum]

/-- Claim C1: for every one of the four series produced by
`generate_performance_data`, the last element of the rescaled sequence
equals that series' hardcoded target constant (Our_Algorithm 124477,
Bank_Nifty 18750, Nifty_Index 12500, Mutual_Funds 8333) — the source's
`xs / xs[-1] * target` sends the last element to exactly the target
whenever the final pre-scale cumulative value is nonzero — and the
strategy target divided by the best benchmark target, 124477 / 18750,
is approximately 6.64 (it rounds to 6.64 at two decimals), i.e. 564%
outperformance after rounding. -/
theorem final_elements_hit_targets (r : RNG)
    (h1 : (cumsum (seriesDraws (r.lib 42) 2593 1500 0)).getLastD 0 ≠ 0)
    (h2 : (cumsum (seriesDraws (r.lib 42) 390 600 48)).getLastD 0 ≠ 0)
    (h3 : (cumsum (seriesDraws (r.lib 42) 260 400 96)).getLastD 0 ≠ 0)
    (h4 : (cumsum (seriesDraws (r.lib 42) 173 250 144)).getLastD 0 ≠ 0) :
    ((generate_performance_data r).col "Our_Algorithm").getLastD 0 = 124477 ∧
    ((generate_performance_data r).col "Bank_Nifty").getLastD 0 = 18750 ∧
    ((generate_performance_data r).col "Nifty_Index").getLastD 0 = 12500 ∧
    ((generate_performance_data r).col "Mutual_Funds").getLastD 0 = 8333 ∧
    round ((124477 : ℚ) / 18750 * 100) = 664 ∧
    round (((124477 : ℚ) - 18750) / 18750 * 100) = 564 := by
  refine ⟨?_, ?_, ?_, ?_, ?_, ?_⟩
  · rw [gpd_col_our]
    exact rescale_getLastD _ _ (cumsum_ne_nil _ (seriesDraws_ne_nil _ _ _ _)) h1
  · rw [gpd_col_bank]
    exact rescale_getLastD _ _ (cumsum_ne_nil _ (seriesDraws_ne_nil _ _ _ _)) h2
  · rw [gpd_col_nifty]
    exact rescale_getLastD _ _ (cumsum_ne_nil _ (seriesDraws_ne_nil _ _ _ _)) h3
  · rw [gpd_col_mutual]
    exact rescale_getLastD _ _ (cumsum_ne_nil _ (seriesDraws_ne_nil _ _ _ _)) h4
  · norm_num [round_eq]
  · norm_num [round_eq]

/-- Witness for C1 at the all-zero variate stream, where every final
pre-scale cumulative value is 48 · mean ≠ 0. -/
theorem final_elements_hit_targets_w :
    ((generate_performance_data zeroRNG).col "Our_Algorithm").getLastD 0 = 124477 ∧
    ((generate_performance_data zeroRNG).col "Bank_Nifty").getLastD 0 = 18750 ∧
    ((generate_performance_data zeroRNG).col "Nifty_Index").getLastD 0 = 12500 ∧
    ((generate_performance_data zeroRNG).col "Mutual_Funds").getLastD 0 = 8333 ∧
    round ((124477 : ℚ) / 18750 * 100) = 664 ∧
    round (((124477 : ℚ) - 18750) / 18750 * 100) = 564 :=
  final_elements_hit_targets zeroRNG
    (by rw [zeroRNG_cumsum_last]; norm_num)
    (by rw [zeroRNG_cumsum_last]; norm_num)
    (by rw [zeroRNG_cumsum_last]; norm_num)
    (by rw [zeroRNG_cumsum_last]; norm_num)

/-- Claim C2: `generate_performance_data` takes no arguments beyond the ambient
generator and reseeds it with the fixed seed 42 on every call, so its
output does not depend on the incoming generator state: any two calls
through the same variate library return identical frames (same dates and
same four numeric sequences, element for element). -/
theorem generator_deterministic (r1 r2 : RNG) (h : r1.lib = r2.lib) :
    generate_performance_data r1 = generate_performance_data r2 := by
  have e1 : generate_performance_data r1 =
      generate_performance_data ⟨r1.lib, fun _ => 0, 0⟩ := rfl
  have e2 : generate_performance_data r2 =
      generate_performance_data ⟨r2.lib, fun _ => 0, 0⟩ := rfl
  rw [e1, e2, h]

/-- Witness for C2: two generators with the same library but different
current streams and positions produce the same frame. -/
theorem generator_deterministic_w :
    generate_performance_data ⟨fun _ _ => 0, fun _ => 0, 0⟩ =
      generate_performance_data ⟨fun _ _ => 0, fun n => (n : ℚ) + 7, 5⟩ :=
  generator_deterministic _ _ rfl

/-- Claim C3: the date index produced by `generate_performance_data` contains
exactly 48 dates, every date is a business day (offset 0 = 2025-09-01 is
a Monday, so weekday `d % 7 < 5` means Monday through Friday), the first
date is 2025-09-01 (offset 0), and each of the four numeric series has
exactly 48 points. -/
theorem date_index_shape :
    dates.length = 48 ∧
    dates.headD 1 = 0 ∧
    dates.all (fun d => decide (d % 7 < 5)) = true ∧
    (∀ r : RNG, (generate_performance_data r).get? "Date" =
      some (ColData.dateCol dates)) ∧
    ∀ r : RNG,
      ((generate_performance_data r).col "Our_Algorithm").length = 48 ∧
      ((generate_performance_data r).col "Bank_Nifty").length = 48 ∧
      ((generate_performance_data r).col "Nifty_Index").length = 48 ∧
      ((generate_performance_data r).col "Mutual_Funds").length = 48 := by
  refine ⟨by decide, by decide, by decide, fun r => rfl, fun r => ?_⟩
  refine ⟨?_, ?_, ?_, ?_⟩ <;>
    simp [gpd_col_our, gpd_col_bank, gpd_col_nifty, gpd_col_mutual,
      rescale_length, cumsum_length, seriesDraws_length]

/-- Claim C4: for every row of the hardcoded comparison table in `main`, the
displayed Outperformance integer equals
(Our Algorithm − Best Traditional) / Best Traditional as a percentage,
rounded to the displayed precision. -/
theorem comparison_rows_consistent :
    ∀ row ∈ comparison_data,
      round (outperf row.ourAlgorithm row.bestTraditional) =
        row.outperformancePct := by
  intro row hrow
  fin_cases hrow <;> norm_num [outperf, round_eq]

/-- Witness for C4 at the Total Returns row:
(124477 − 18750) / 18750 rounds to +564%. -/
theorem comparison_rows_consistent_w :
    round (outperf (124477 : ℚ) 18750) = 564 :=
  comparison_rows_consistent ⟨"Total Returns", 124477, 18750, 564⟩
    (by simp [comparison_data])

/-- Claim C5: each of the four series returned by `generate_performance_data`
is the cumulative sum of 48 increments `mean + std · z` with the
per-series pairs (2593, 1500), (390, 600), (260, 400), (173, 250), then
linearly rescaled — every element multiplied by the same constant
target / final-cumulative-value — exactly the spec's phrasing
`spec_rescaled_series`. -/
theorem series_follow_generation_contract (r : RNG) :
    ((generate_performance_data r).col "Our_Algorithm" =
      spec_rescaled_series (seriesDraws (r.lib 42) 2593 1500 0) 124477) ∧
    ((generate_performance_data r).col "Bank_Nifty" =
      spec_rescaled_series (seriesDraws (r.lib 42) 390 600 48) 18750) ∧
    ((generate_performance_data r).col "Nifty_Index" =
      spec_rescaled_series (seriesDraws (r.lib 42) 260 400 96) 12500) ∧
    ((generate_performance_data r).col "Mutual_Funds" =
      spec_rescaled_series (seriesDraws (r.lib 42) 173 250 144) 8333) ∧
    (seriesDraws (r.lib 42) 2593 1500 0).length = 48 ∧
    (seriesDraws (r.lib 42) 390 600 48).length = 48 ∧
    (seriesDraws (r.lib 42) 260 400 96).length = 48 ∧
    (seriesDraws (r.lib 42) 173 250 144).length = 48 :=
  ⟨by rw [gpd_col_our, rescale_eq_spec],
   by rw [gpd_col_bank, rescale_eq_spec],
   by rw [gpd_col_nifty, rescale_eq_spec],
   by rw [gpd_col_mutual, rescale_eq_spec],
   seriesDraws_length _ _ _ _, seriesDraws_length _ _ _ _,
   seriesDraws_length _ _ _ _, seriesDraws_length _ _ _ _⟩

/-- Claim C6: a single run of `main` emits exactly 4 KPI metric-card blocks,
then the performance chart embed, then the comparison table, then the
drawdown and risk-radar embeds (3 chart embeds in total), and exactly one
footer block, which is the last block; the generator and each of the
three chart builders are invoked exactly once, the generator before the
performance-chart builder, that builder before its embed. -/
theorem main_emits_fixed_layout :
    mainTrace.count Event.kpiCard = 4 ∧
    mainTrace.count Event.chartEmbed = 3 ∧
    mainTrace.count Event.comparisonTable = 1 ∧
    mainTrace.count Event.footerBlock = 1 ∧
    mainTrace.count Event.genCall = 1 ∧
    mainTrace.count Event.buildPerf = 1 ∧
    mainTrace.count Event.buildDrawdown = 1 ∧
    mainTrace.count Event.buildRadar = 1 ∧
    mainTrace.getLastD Event.headerBlock = Event.footerBlock ∧
    mainTrace.filter (fun e =>
        e == Event.kpiCard || e == Event.chartEmbed ||
        e == Event.comparisonTable || e == Event.footerBlock) =
      [Event.kpiCard, Event.kpiCard, Event.kpiCard, Event.kpiCard,
       Event.chartEmbed, Event.comparisonTable,
       Event.chartEmbed, Event.chartEmbed, Event.footerBlock] ∧
    mainTrace.filter (fun e =>
        e == Event.genCall || e == Event.buildPerf ||
        e == Event.buildDrawdown || e == Event.buildRadar ||
        e == Event.chartEmbed) =
      [Event.genCall, Event.buildPerf, Event.chartEmbed,
       Event.buildDrawdown, Event.chartEmbed,
       Event.buildRadar, Event.chartEmbed] := by
  decide

/-- Claim C7: `create_performance_chart` returns a figure (does not fail) on
any frame that has the generator's five columns, in particular on
`generate_performance_data`'s output for every variate library; the
other two builders consume only fixed literals and each returns a
one-trace figure. -/
theorem chart_builders_do_not_fail :
    (∀ df : NamedFrame,
      (df.get? "Date").isSome = true →
      (df.get? "Our_Algorithm").isSome = true →
      (df.get? "Bank_Nifty").isSome = true →
      (df.get? "Nifty_Index").isSome = true →
      (df.get? "Mutual_Funds").isSome = true →
      (create_performance_chart df).isSome = true) ∧
    (∀ r : RNG,
      (create_performance_chart (generate_performance_data r)).isSome = true) ∧
    create_drawdown_chart.traces.length = 1 ∧
    create_risk_radar_chart.traces.length = 1 := by
  refine ⟨?_, fun r => rfl, rfl, rfl⟩
  intro df h1 h2 h3 h4 h5
  rw [create_performance_chart]
  rw [Option.isSome_iff_exists] at h1 h2 h3 h4 h5
  obtain ⟨xd, hxd⟩ := h1
  obtain ⟨ya, hya⟩ := h2
  obtain ⟨yb, hyb⟩ := h3
  obtain ⟨yn, hyn⟩ := h4
  obtain ⟨ym, hym⟩ := h5
  rw [hxd, hya, hyb, hyn, hym]
  rfl

/-- Witness for C7 at the zero generator's frame, whose five columns are
all present. -/
theorem chart_builders_do_not_fail_w :
    (create_performance_chart (generate_performance_data zeroRNG)).isSome =
      true :=
  chart_builders_do_not_fail.1 (generate_performance_data zeroRNG)
    rfl rfl rfl rfl rfl

/-- Claim C8: the frame is not mutated between construction and embedding —
the figure `main` embeds carries, trace for trace, exactly the columns of
`generate_performance_data`'s output, in order (x is always the Date
column, the y-series are the four numeric columns), so the data observed
at embed time equals the data at construction time, field for field. -/
theorem embedded_chart_equals_constructed_data (r : RNG) :
    (create_performance_chart (generate_performance_data r)).map
        (fun f => f.traces.map PlotTrace.yData) =
      some
        [ColData.ratCol ((generate_performance_data r).col "Our_Algorithm"),
         ColData.ratCol ((generate_performance_data r).col "Bank_Nifty"),
         ColData.ratCol ((generate_performance_data r).col "Nifty_Index"),
         ColData.ratCol ((generate_performance_data r).col "Mutual_Funds")] ∧
    (create_performance_chart (generate_performance_data r)).map
        (fun f => f.traces.map PlotTrace.xData) =
      some (List.replicate 4 (some (ColData.dateCol dates))) :=
  ⟨rfl, rfl⟩

/-- Claim C10: in the hardcoded drawdown data of `create_drawdown_chart`, the
'Our Algorithm' drawdown 19.6 is strictly greater than each benchmark
drawdown (12.3, 8.5, 6.2) and stays below the 25% maximum-drawdown
target the page quotes; `strategies` and `drawdowns` both have length 4,
matching bar for bar. -/
theorem drawdown_data_consistent :
    strategies.length = 4 ∧
    drawdowns.length = 4 ∧
    drawdowns.getD 0 0 > drawdowns.getD 1 0 ∧
    drawdowns.getD 0 0 > drawdowns.getD 2 0 ∧
    drawdowns.getD 0 0 > drawdowns.getD 3 0 ∧
    drawdowns.getD 0 0 < performance_targets_max_drawdown ∧
    create_drawdown_chart.traces =
      [PlotTrace.bar strategies drawdowns colors] := by
  refine ⟨rfl, rfl, ?_, ?_, ?_, ?_, rfl⟩ <;>
    norm_num [drawdowns, performance_targets_max_drawdown]

end InvestorApp
